import Mathlib

/-!
Shallow embedding of the radiosim radiometric signal chain.

Source files embedded here (python module `radiosim`):
  * `__init__.py`          — physical constants
  * `RadianceSpectrum.py`  — `planck`, `I`, `E` (irradiance via f-number)
  * `BlackBodySpectrum.py` — blackbody source (`get_I = planck`)
  * `StageResponse.py`     — optical stage: `t`, `set_multiplicity`, `apply_scalar`
  * `CompoundResponse.py`  — stage pipeline: `get_t`, `set_multiplicity`, `apply_scalar`
  * `PowerSpectrum.py`     — `set_attenuation`, `PSD` (scalar wavelength branch)
  * `AttenuatedSpectrum.py`— `set_attenuation`, `get_I`
  * `CCDPixel.py`          — `countsPerPixel`, noise-disabled `electronsPerPixel`
  * `DetectorSimulator.py` — `getMaxTexp` (vector branch), `TExpSimulator`
                             (`poissonDistribution`, `normalInt`, `work`,
                              `progress`, `done`, `get_result`)

Python floats are embedded as real numbers; numpy arrays as lists; python
exceptions as `Except RadioErr`.  The external library functions
`scipy.special.erf` is kept abstract (a function parameter `erf`), and
`np.math.gamma` is `Real.Gamma`.  The wall-clock budget of
`TExpSimulator.work` is abstracted into a fuel argument bounding the number
of loop iterations; everything else in the loop body is deterministic.
-/

noncomputable section

/-- Physical constants, from `radiosim/__init__.py`. -/
def SPEED_OF_LIGHT : ℝ := 299792458

/-- Planck constant, from `radiosim/__init__.py`. -/
def PLANCK_CONSTANT : ℝ := 6.62607015e-34

/-- Wien displacement constant, from `radiosim/__init__.py`. -/
def WIEN_B : ℝ := 2.897771955e-3

/-- Boltzmann constant, from `radiosim/__init__.py`. -/
def BOLTZMANN : ℝ := 1.380649e-23

/-- The exceptions raised by the embedded code paths. -/
inductive RadioErr where
  /-- Source `RadianceSpectrum.E`: "Cannot calculate radiance: f/# not set". -/
  | fnumNotSet
  /-- Source `AttenuatedSpectrum.set_attenuation`: "Invalid attenuation". -/
  | invalidAttenuation
  /-- Source `DetectorSimulator.getMaxTexp`: "Source produced no counts". -/
  | noCounts
  /-- Source `CompoundResponse.set_multiplicity` with `repeat_train`: the source line
  `StageResponse.set_multiplicity(mult)` looks the attribute up on the
  imported *module* `StageResponse` (which has no such attribute) instead of
  calling the method inherited on `self`, so Python raises `AttributeError`. -/
  | attrSetMultiplicity

/-- Source `RadianceSpectrum.planck` (wavelength branch):
`2*h*c2 / (wl**5) / (np.exp(h*c/(wl*k*T)) - 1)` with `c2 = c*c`. -/
def planck (wl T : ℝ) : ℝ :=
  2 * PLANCK_CONSTANT * (SPEED_OF_LIGHT * SPEED_OF_LIGHT) / wl ^ 5 /
    (Real.exp (PLANCK_CONSTANT * SPEED_OF_LIGHT / (wl * BOLTZMANN * T)) - 1)

/-- State of a `BlackBodySpectrum` (fields inherited from `RadianceSpectrum`):
temperature `T`, `power_factor` (1 at construction), and `to_irradiance`
(−1 at construction; `set_fnum` sets it to `π/(4 fnum²)`). -/
structure BlackBodySpectrum where
  T : ℝ
  power_factor : ℝ
  to_irradiance : ℝ

/-- Source `BlackBodySpectrum.__init__(T)`. -/
def mkBlackBody (T : ℝ) : BlackBodySpectrum :=
  { T := T, power_factor := 1, to_irradiance := -1 }

/-- Source `RadianceSpectrum.set_fnum`: `to_irradiance = np.pi / (4 * fnum ** 2)`. -/
def BlackBodySpectrum.set_fnum (b : BlackBodySpectrum) (fnum : ℝ) : BlackBodySpectrum :=
  { b with to_irradiance := Real.pi / (4 * fnum ^ 2) }

/-- Source `BlackBodySpectrum.get_I(wl)`: `planck(wl, T)`. -/
def BlackBodySpectrum.get_I (b : BlackBodySpectrum) (wl : ℝ) : ℝ := planck wl b.T

/-- Source `RadianceSpectrum.I` (scalar wavelength branch): `power_factor * get_I(wl)`. -/
def BlackBodySpectrum.I (b : BlackBodySpectrum) (wl : ℝ) : ℝ :=
  b.power_factor * b.get_I wl

/-- Source `RadianceSpectrum.E`: raises when `to_irradiance < 0` (f/# never set),
otherwise returns `to_irradiance * I(wl)` — the irradiance, i.e. the radiance
scaled by `π/(4 fnum²)`. -/
def BlackBodySpectrum.E (b : BlackBodySpectrum) (wl : ℝ) : Except RadioErr ℝ :=
  if b.to_irradiance < 0 then Except.error RadioErr.fnumNotSet
  else Except.ok (b.to_irradiance * b.I wl)

/-- State of a (leaf) `StageResponse`: the abstract transmittance evaluator
`get_t` of the concrete subclass is the field `t_fun`; `exp` is the
multiplicity `_exp` (1 at construction), `T` the temperature `_T`,
`black_body` the `_black_body` member, `background` the `_background` flag. -/
structure StageResponse where
  t_fun : ℝ → ℝ
  exp : ℝ
  T : ℝ
  black_body : BlackBodySpectrum
  background : Bool

/-- Source `StageResponse.set_multiplicity`: stores `exp` verbatim (no rounding). -/
def StageResponse.set_multiplicity (st : StageResponse) (e : ℝ) : StageResponse :=
  { st with exp := e }

/-- Source `StageResponse.t` (scalar branch): `get_t(wl)` when `_exp == 1`, else
`get_t(wl) ** _exp` (python float power = real rpow). -/
def StageResponse.t (st : StageResponse) (wl : ℝ) : ℝ :=
  if st.exp = 1 then st.t_fun wl else st.t_fun wl ^ st.exp

/-- Source `StageResponse.apply_scalar(wl, spectrum, thermal)`; the parameter
`isPowerSpectrum` models `issubclass(type(spectrum), PowerSpectrum)` (false
whenever the spectrum argument is a number, as in every numeric call).
`result = t*spectrum`; when `_T > 0` and background is enabled and the input
is not a power spectrum and `thermal`, adds `(1 - t) * _black_body.E(wl)`.
`apply_array` is the elementwise version of the same formula. -/
def StageResponse.apply_scalar (st : StageResponse) (wl spectrum : ℝ)
    (isPowerSpectrum thermal : Bool) : Except RadioErr ℝ :=
  let t := st.t wl
  let result := t * spectrum
  if 0 < st.T ∧ st.background = true then
    if isPowerSpectrum || !thermal then Except.ok result
    else (st.black_body.E wl).map (fun e => result + (1 - t) * e)
  else Except.ok result

/-- The function `planck` is positive for positive wavelength and temperature. -/
theorem planck_pos {wl T : ℝ} (hwl : 0 < wl) (hT : 0 < T) : 0 < planck wl T := by
  have hh : (0:ℝ) < PLANCK_CONSTANT := by norm_num [PLANCK_CONSTANT]
  have hc : (0:ℝ) < SPEED_OF_LIGHT := by norm_num [SPEED_OF_LIGHT]
  have hk : (0:ℝ) < BOLTZMANN := by norm_num [BOLTZMANN]
  have harg : 0 < PLANCK_CONSTANT * SPEED_OF_LIGHT / (wl * BOLTZMANN * T) := by
    apply div_pos (by positivity) (by positivity)
  have hexp : (1:ℝ) < Real.exp (PLANCK_CONSTANT * SPEED_OF_LIGHT / (wl * BOLTZMANN * T)) := by
    calc (1:ℝ) = Real.exp 0 := by simp
    _ < _ := Real.exp_lt_exp.mpr harg
  have hden : 0 < Real.exp (PLANCK_CONSTANT * SPEED_OF_LIGHT / (wl * BOLTZMANN * T)) - 1 := by
    linarith
  have hnum : 0 < 2 * PLANCK_CONSTANT * (SPEED_OF_LIGHT * SPEED_OF_LIGHT) / wl ^ 5 := by
    positivity
  exact div_pos hnum hden

/-- Embedding of `int(np.round(x))`: numpy rounds half to even. -/
def npRound (x : ℝ) : ℤ :=
  if x - Int.floor x < 1/2 then Int.floor x
  else if 1/2 < x - Int.floor x then Int.floor x + 1
  else if Int.floor x % 2 = 0 then Int.floor x else Int.floor x + 1

theorem npRound_one : npRound 1 = 1 := by
  simp [npRound]

/-- State of a `CompoundResponse`: the ordered stage list, the inherited
multiplicity `_exp` (1 at construction) and the `_repeat_train` flag. -/
structure CompoundResponse where
  stages : List StageResponse
  exp : ℝ
  repeat_train : Bool

/-- Source `CompoundResponse.set_multiplicity`: with `repeat_train` the source
executes `StageResponse.set_multiplicity(mult)`, an attribute lookup on the
imported *module* `StageResponse` (see `from . import StageResponse`), which
raises `AttributeError` and leaves `self._exp` unchanged; without
`repeat_train` it forwards the multiplicity to every component stage. -/
def CompoundResponse.set_multiplicity (c : CompoundResponse) (mult : ℝ) :
    Except RadioErr CompoundResponse :=
  if c.repeat_train = true then Except.error RadioErr.attrSetMultiplicity
  else Except.ok { c with stages := c.stages.map (fun s => s.set_multiplicity mult) }

/-- Source `CompoundResponse.get_t` (scalar branch): `response = 1.`, then
`response *= s.t(wl)` over the stages, ignoring background. -/
def CompoundResponse.get_t (c : CompoundResponse) (wl : ℝ) : ℝ :=
  c.stages.foldl (fun response s => response * s.t wl) 1

/-- One pass of `CompoundResponse.apply_scalar`'s inner `for` loop: threads
the running spectrum value through each stage in order (the spectrum argument
is a number, so the `PowerSpectrum` check inside each stage is false). -/
def applyStages (wl : ℝ) (thermal : Bool) :
    List StageResponse → ℝ → Except RadioErr ℝ
  | [], r => Except.ok r
  | s :: rest, r =>
    match s.apply_scalar wl r false thermal with
    | Except.ok r2 => applyStages wl thermal rest r2
    | Except.error e => Except.error e

/-- The `while n > 0` loop of `CompoundResponse.apply_scalar`: repeats the
whole stage train `n` times. -/
def applyIter (stages : List StageResponse) (wl : ℝ) (thermal : Bool) :
    ℕ → ℝ → Except RadioErr ℝ
  | 0, r => Except.ok r
  | n + 1, r =>
    match applyStages wl thermal stages r with
    | Except.ok r2 => applyIter stages wl thermal n r2
    | Except.error e => Except.error e

/-- Source `CompoundResponse.apply_scalar(wl, spectrum, thermal)`:
`n = int(np.round(self.get_multiplicity()))`, then threads the whole train
`n` times. -/
def CompoundResponse.apply_scalar (c : CompoundResponse) (wl spectrum : ℝ)
    (thermal : Bool) : Except RadioErr ℝ :=
  applyIter c.stages wl thermal (npRound c.exp).toNat spectrum

/-- State of a `PowerSpectrum`: optional nominal `power` rating,
`power_factor` (1 at construction), `attenuation` (0 at construction), and
the abstract subclass evaluator `get_PSD`. -/
structure PowerSpectrum where
  power : Option ℝ
  power_factor : ℝ
  attenuation : ℝ
  get_PSD_fun : ℝ → ℝ

/-- Source `PowerSpectrum.set_attenuation`: stores the factor with no validation. -/
def PowerSpectrum.set_attenuation (s : PowerSpectrum) (factor : ℝ) : PowerSpectrum :=
  { s with attenuation := factor }

/-- Source `PowerSpectrum.PSD` (scalar wavelength branch):
`f = power_factor * (1 - attenuation)`, result `f * get_PSD(wl)`. -/
def PowerSpectrum.PSD (s : PowerSpectrum) (wl : ℝ) : ℝ :=
  s.power_factor * (1 - s.attenuation) * s.get_PSD_fun wl

/-- State of an `AttenuatedSpectrum`: the wrapped source (its `power_factor`
and abstract `get_I` evaluator), the `filters` pipeline (an empty
`CompoundResponse` at construction) and the `attenuation` (0 at
construction). -/
structure AttenuatedSpectrum where
  source_power_factor : ℝ
  source_get_I : ℝ → ℝ
  filters : CompoundResponse
  attenuation : ℝ

/-- Source `AttenuatedSpectrum.set_attenuation`: raises for values outside [0,1]. -/
def AttenuatedSpectrum.set_attenuation (s : AttenuatedSpectrum) (a : ℝ) :
    Except RadioErr AttenuatedSpectrum :=
  if a < 0 ∨ 1 < a then Except.error RadioErr.invalidAttenuation
  else Except.ok { s with attenuation := a }

/-- Source `AttenuatedSpectrum.get_I(wl)` (scalar branch):
`alpha = (1 - attenuation) * sourceSpectrum.power_factor`, then
`filters.apply(wl, alpha * sourceSpectrum.get_I(wl))` (the float/float
combination dispatches to `apply_scalar`, `thermal` defaulting to true). -/
def AttenuatedSpectrum.get_I (s : AttenuatedSpectrum) (wl : ℝ) : Except RadioErr ℝ :=
  let alpha := (1 - s.attenuation) * s.source_power_factor
  s.filters.apply_scalar wl (alpha * s.source_get_I wl) true

/-- State of a `CCDPixel` (only the ADU gain `G` is needed here). -/
structure CCDPixel where
  G : ℝ

/-- Source `CCDPixel.countsPerPixel`: `electrons / G` — no rounding. -/
def CCDPixel.countsPerPixel (px : CCDPixel) (electrons : ℝ) : ℝ :=
  electrons / px.G

/-- Source `CCDPixel.electronsPerPixel` with noise disabled: `e = e_rate * t`,
negative entries clipped to 0 (`e[np.where(e < 0)] = 0`). -/
def electronsPerPixelNoNoise (e_rate : List ℝ) (t : ℝ) : List ℝ :=
  (e_rate.map (fun r => r * t)).map (fun e => if e < 0 then 0 else e)

/-- Source `DetectorSimulator.countsPerPixel` with `disable_noise = True`, given the
electron rates at the sampled wavelengths: electrons then counts. -/
def countsPerPixelNoNoise (px : CCDPixel) (e_rate : List ℝ) (t : ℝ) : List ℝ :=
  (electronsPerPixelNoNoise e_rate t).map (fun e => px.countsPerPixel e)

/-- Embedding of `np.max` over a nonempty vector ([] ↦ 0 for totality). -/
def listMax : List ℝ → ℝ
  | [] => 0
  | [a] => a
  | a :: b :: rest => max a (listMax (b :: rest))

/-- Embedding of `np.argmax`: the first index attaining the maximum. -/
def argmaxIdx : List ℝ → ℕ
  | [] => 0
  | [_] => 0
  | a :: b :: rest =>
    if listMax (b :: rest) ≤ a then 0 else argmaxIdx (b :: rest) + 1

/-- Source `DetectorSimulator.getMaxTexp` (vector branch, wavelength axis):
counts at `t = 1` with noise disabled, `max_ndx = np.argmax(counts)`,
`max_count = counts[max_ndx]`, `max_lambda = wl[max_ndx]`,
`max_nu = c / max_lambda`; raises when `max_count == 0`, else returns
`(1 * k, max_lambda, max_nu)` with `k = count_limit / max_count`. -/
def getMaxTexp (px : CCDPixel) (e_rate wl : List ℝ) (count_limit : ℝ) :
    Except RadioErr (ℝ × ℝ × ℝ) :=
  let counts := countsPerPixelNoNoise px e_rate 1
  let max_ndx := argmaxIdx counts
  let max_count := counts.getD max_ndx 0
  let max_lambda := wl.getD max_ndx 0
  let max_nu := SPEED_OF_LIGHT / max_lambda
  if max_count = 0 then Except.error RadioErr.noCounts
  else Except.ok (1 * (count_limit / max_count), max_lambda, max_nu)

/-- The double literal `sqrt2 = 1.4142135623730951` from
`TExpSimulator.normalInt` (the IEEE-754 double nearest to √2). -/
def sqrt2lit : ℝ := 1.4142135623730951

/-- Source `TExpSimulator.normalInt(a, b, sigma, mu)`:
`q = 1/(sqrt2*sigma)`, `p = .5*(erf((b-mu)*q) - erf((a-mu)*q))`, with `erf`
the (abstract) `scipy.special.erf`. -/
def normalInt (erf : ℝ → ℝ) (a b sigma mu : ℝ) : ℝ :=
  let q := 1 / (sqrt2lit * sigma)
  1/2 * (erf ((b - mu) * q) - erf ((a - mu) * q))

/-- Source `TExpSimulator.poissonDistribution(x, rate)`: for `rate > 20` the
Gaussian approximation `N(rate, √rate)`, otherwise the closed form
`exp(-rate) * rate**x / gamma(x+1)` (`np.math.gamma` is `Real.Gamma`). -/
def poissonDistribution (x rate : ℝ) : ℝ :=
  if 20 < rate then
    Real.exp (-(1/2) * ((x - rate) / Real.sqrt rate) ^ 2) /
      (Real.sqrt (2 * Real.pi) * Real.sqrt rate)
  else
    Real.exp (-rate) * rate ^ x / Real.Gamma (x + 1)

/-- State of a `TExpSimulator`: `Ie` the electron rate, `gain`/`ronF` the
detector's gain and read-noise function, `t_exp` the exposure-time grid,
`p` the accumulating density array (an entry `none` models a float NaN),
progress index `i`, grid size `N`, the count-window bounds
`ca = count_limit - .5`, `cb = count_limit + .5` and the grid step `dt`. -/
structure TExpSimulator where
  Ie : ℝ
  gain : ℝ
  ronF : ℝ → ℝ
  t_exp : List ℝ
  p : List (Option ℝ)
  i : ℕ
  N : ℕ
  ca : ℝ
  cb : ℝ
  dt : ℝ

/-- The body of `TExpSimulator.work`'s loop at grid point `t`:
`sigma = ron(t)/gain`, `rate = Ie*t`, support `nes = {0,...,5*int(ceil(rate))}`
(`np.linspace(0, max, max+1)`), `mus = nes/gain`, and the dot product
`np.dot(poissonDistribution(nes, rate), normalInt(ca, cb, sigma, mus))`. -/
def texpDensityAt (erf : ℝ → ℝ) (s : TExpSimulator) (t : ℝ) : ℝ :=
  let sigma := s.ronF t / s.gain
  let rate := s.Ie * t
  let m := (5 * Int.ceil rate).toNat
  ∑ k ∈ Finset.range (m + 1),
    poissonDistribution k rate * normalInt erf s.ca s.cb sigma (k / s.gain)

/-- One iteration of `TExpSimulator.work`'s loop: store
`p[i] = np.dot(...)` for `t = t_exp[i]`, then `i += 1`. -/
def processOne (erf : ℝ → ℝ) (s : TExpSimulator) : TExpSimulator :=
  { s with
    p := s.p.set s.i (some (texpDensityAt erf s (s.t_exp.getD s.i 0)))
    i := s.i + 1 }

/-- Source `TExpSimulator.work(timeout_ms)`: the loop `while i < N and (time left)`.
The wall-clock budget is abstracted into `fuel`, the number of iterations the
budget admits; each iteration is `processOne`. -/
def TExpSimulator.work (erf : ℝ → ℝ) : TExpSimulator → ℕ → TExpSimulator
  | s, 0 => s
  | s, fuel + 1 => if s.i < s.N then TExpSimulator.work erf (processOne erf s) fuel else s

/-- Source `TExpSimulator.progress`: `i / N`. -/
def TExpSimulator.progress (s : TExpSimulator) : ℝ := (s.i : ℝ) / (s.N : ℝ)

/-- Source `TExpSimulator.done`: `i == N`. -/
def TExpSimulator.done (s : TExpSimulator) : Bool := s.i == s.N

/-- Source `TExpSimulator.get_result`: NaN entries of `p` are zeroed
(`self.p[nans] = 0`), `k = np.sum(self.p * self.dt)`, `k = 1` when `k == 0`,
returns `np.array([self.t_exp, self.p / k])`. -/
def TExpSimulator.get_result (s : TExpSimulator) : List ℝ × List ℝ :=
  let cleaned := s.p.map (fun x => x.getD 0)
  let k0 := (cleaned.map (fun v => v * s.dt)).sum
  let k := if k0 = 0 then 1 else k0
  (s.t_exp, cleaned.map (fun v => v / k))

/-! ### Definitions following the specification's words

Each `claim…` definition below transcribes a sentence of the specification,
to be compared against the definitions above, which transcribe the source. -/

/-- Spec, §4.2: the output of `apply` is `t(λ) × input` plus
`(1 − t(λ)) × Blackbody(stage.temperature).radiance(λ)` — the *radiance* of a
blackbody at the stage's own temperature, i.e. `planck(λ, T)` (a
`BlackBodySpectrum(T)` has `power_factor = 1`, so its radiance `I` is exactly
`planck`). -/
def claimC1_output (st : StageResponse) (wl spectrum : ℝ) : ℝ :=
  st.t wl * spectrum + (1 - st.t wl) * planck wl st.T

/-- Spec, §4.4: the Poisson probability mass at support point `k` for rate
`rate`: the closed form `exp(-rate)·rateᵏ/k!` when the rate is at most 20,
and the density of the Gaussian approximation `N(rate, √rate)` when the rate
exceeds 20. -/
def claimC2_poissonPmf (k : ℕ) (rate : ℝ) : ℝ :=
  if rate ≤ 20 then Real.exp (-rate) * rate ^ k / (Nat.factorial k)
  else Real.exp (-((k - rate) ^ 2 / (2 * rate))) / Real.sqrt (2 * Real.pi * rate)

/-- Spec, §4.4: the unnormalized density at exposure time `t` is the dot
product, over the support `{0, 1, …, 5·⌈Ie·t⌉}`, of the Poisson pmf at each
support point and the probability (difference of two error-function
evaluations) that a Gaussian with mean `count/g` and standard deviation
`ron(t)/g` lands in `[c − 0.5, c + 0.5]`. -/
def claimC2_density (erf : ℝ → ℝ) (Ie g : ℝ) (ronF : ℝ → ℝ) (c t : ℝ) : ℝ :=
  ∑ k ∈ Finset.range (5 * Nat.ceil (Ie * t) + 1),
    claimC2_poissonPmf k (Ie * t) *
      normalInt erf (c - 1/2) (c + 1/2) (ronF t / g) (k / g)

/-- Spec, §4.3 step 4: `counts = round(electrons / gain)`. -/
def claimC4_counts (electrons gain : ℝ) : ℝ :=
  ((round (electrons / gain) : ℤ) : ℝ)

/-- Spec, §8: after `set_multiplicity(m)`, a stage's contribution to the
composite transmittance is `t(λ)` raised to `round(m)`. -/
def claimC6_contribution (t m : ℝ) : ℝ :=
  t ^ (npRound m)

/-- The trapezoid-rule sum of consecutive values (to be scaled by the grid
step): `Σ (p_j + p_{j+1})/2`. -/
def trapzSum : List ℝ → ℝ
  | a :: b :: rest => (a + b) / 2 + trapzSum (b :: rest)
  | _ => 0

/-- Spec, §4.4 `result()`: replace NaN density values by 0, then normalize by
the trapezoid-rule integral of the density over the exposure-time grid
(uniform step `dt`), treating a zero integral as already normalized, and
return the (t-grid, normalized density) pair. -/
def claimC7_result (s : TExpSimulator) : List ℝ × List ℝ :=
  let cleaned := s.p.map (fun x => x.getD 0)
  let k0 := s.dt * trapzSum cleaned
  let k := if k0 = 0 then 1 else k0
  (s.t_exp, cleaned.map (fun v => v / k))

/-! ### Helper lemmas about the `work` loop -/

theorem processOne_fields (erf : ℝ → ℝ) (s : TExpSimulator) :
    (processOne erf s).Ie = s.Ie ∧ (processOne erf s).gain = s.gain ∧
    (processOne erf s).ronF = s.ronF ∧ (processOne erf s).t_exp = s.t_exp ∧
    (processOne erf s).N = s.N ∧ (processOne erf s).ca = s.ca ∧
    (processOne erf s).cb = s.cb ∧ (processOne erf s).dt = s.dt ∧
    (processOne erf s).i = s.i + 1 ∧ (processOne erf s).p.length = s.p.length := by
  simp [processOne]

theorem work_fields (erf : ℝ → ℝ) (fuel : ℕ) (s : TExpSimulator) :
    (s.work erf fuel).Ie = s.Ie ∧ (s.work erf fuel).gain = s.gain ∧
    (s.work erf fuel).ronF = s.ronF ∧ (s.work erf fuel).t_exp = s.t_exp ∧
    (s.work erf fuel).N = s.N ∧ (s.work erf fuel).ca = s.ca ∧
    (s.work erf fuel).cb = s.cb ∧ (s.work erf fuel).dt = s.dt ∧
    (s.work erf fuel).p.length = s.p.length := by
  induction fuel generalizing s with
  | zero => simp [TExpSimulator.work]
  | succ fuel ih =>
    rw [TExpSimulator.work]
    by_cases h : s.i < s.N
    · rw [if_pos h]
      have hp := ih (processOne erf s)
      simpa [processOne] using hp
    · rw [if_neg h]
      exact ⟨rfl, rfl, rfl, rfl, rfl, rfl, rfl, rfl, rfl⟩

theorem work_i_eq (erf : ℝ → ℝ) (fuel : ℕ) (s : TExpSimulator) (hi : s.i ≤ s.N) :
    (s.work erf fuel).i = min (s.i + fuel) s.N := by
  induction fuel generalizing s with
  | zero => simpa [TExpSimulator.work] using (Nat.min_eq_left hi).symm
  | succ fuel ih =>
    rw [TExpSimulator.work]
    by_cases h : s.i < s.N
    · rw [if_pos h]
      have h1 : (processOne erf s).i = s.i + 1 := by simp [processOne]
      have h2 : (processOne erf s).N = s.N := by simp [processOne]
      have := ih (processOne erf s) (by rw [h1, h2]; exact h)
      rw [this, h1, h2]
      omega
    · rw [if_neg h]
      have : s.i = s.N := le_antisymm hi (not_lt.mp h)
      omega

theorem work_stable_below (erf : ℝ → ℝ) (fuel : ℕ) (s : TExpSimulator) (j : ℕ)
    (hj : j < s.i) : (s.work erf fuel).p[j]? = s.p[j]? := by
  induction fuel generalizing s with
  | zero => simp [TExpSimulator.work]
  | succ fuel ih =>
    rw [TExpSimulator.work]
    by_cases h : s.i < s.N
    · rw [if_pos h]
      have hji : j < (processOne erf s).i := by simp [processOne]; omega
      rw [ih (processOne erf s) hji]
      simp only [processOne]
      exact List.getElem?_set_ne (by omega)
    · rw [if_neg h]

/-- The code's two-regime Poisson mass agrees with the specification's: for
rates at most 20 the gamma-function closed form is the factorial closed form,
and above 20 the two ways of writing the `N(rate, √rate)` density agree. -/
theorem poissonDistribution_eq_claimPmf (k : ℕ) (rate : ℝ) :
    poissonDistribution k rate = claimC2_poissonPmf k rate := by
  unfold poissonDistribution claimC2_poissonPmf
  rcases le_or_lt rate 20 with h20 | h20
  · rw [if_neg (not_lt.mpr h20), if_pos h20, Real.rpow_natCast,
      Real.Gamma_nat_eq_factorial]
  · have hr : (0:ℝ) < rate := lt_trans (by norm_num) h20
    rw [if_pos h20, if_neg (not_le.mpr h20)]
    congr 1
    · congr 1
      rw [div_pow, Real.sq_sqrt hr.le]
      ring
    · rw [← Real.sqrt_mul (by positivity : (0:ℝ) ≤ 2 * Real.pi)]

theorem texpDensityAt_processOne (erf : ℝ → ℝ) (s : TExpSimulator) (t : ℝ) :
    texpDensityAt erf (processOne erf s) t = texpDensityAt erf s t := by
  simp [texpDensityAt, processOne]

/-- The loop body's dot product equals the density the specification
describes, whenever the rate is nonnegative and the count window stored at
construction is `[c − 0.5, c + 0.5]`. -/
theorem texpDensityAt_eq_claim (erf : ℝ → ℝ) (s : TExpSimulator) (c t : ℝ)
    (hca : s.ca = c - 1/2) (hcb : s.cb = c + 1/2)
    (hIe : 0 ≤ s.Ie) (ht : 0 ≤ t) :
    texpDensityAt erf s t = claimC2_density erf s.Ie s.gain s.ronF c t := by
  unfold texpDensityAt claimC2_density
  dsimp only
  have hrate : (0:ℝ) ≤ s.Ie * t := mul_nonneg hIe ht
  have hceil : (0:ℤ) ≤ Int.ceil (s.Ie * t) := Int.ceil_nonneg hrate
  have hm : (5 * Int.ceil (s.Ie * t)).toNat = 5 * Nat.ceil (s.Ie * t) := by
    rw [← Int.ceil_toNat]
    omega
  rw [hm, hca, hcb]
  exact Finset.sum_congr rfl fun k _ => by
    rw [poissonDistribution_eq_claimPmf]

/-- Every grid point the budget lets `work` process is stored as the loop
body's dot product at that point's exposure time. -/
theorem work_entries (erf : ℝ → ℝ) (fuel : ℕ) (s : TExpSimulator) (j : ℕ)
    (hlen : s.p.length = s.N) (hij : s.i ≤ j) (hjf : j < s.i + fuel)
    (hjN : j < s.N) :
    (s.work erf fuel).p[j]? = some (some (texpDensityAt erf s (s.t_exp.getD j 0))) := by
  induction fuel generalizing s j with
  | zero => omega
  | succ fuel ih =>
    have hiN : s.i < s.N := lt_of_le_of_lt hij hjN
    rw [TExpSimulator.work, if_pos hiN]
    rcases eq_or_lt_of_le hij with heq | hlt
    · rw [work_stable_below erf fuel (processOne erf s) j (by simp [processOne]; omega)]
      simp only [processOne, ← heq]
      exact List.getElem?_set_self (by omega)
    · have h1 := ih (processOne erf s) j
        (by simp [processOne]; omega) (by simp [processOne]; omega)
        (by simp [processOne]; omega) (by simp [processOne]; omega)
      rw [h1, texpDensityAt_processOne]
      simp [processOne]

/-- The loop `work` leaves the state unchanged once `done` (i == N). -/
theorem work_noop (erf : ℝ → ℝ) (fuel : ℕ) (s : TExpSimulator) (h : s.i = s.N) :
    s.work erf fuel = s := by
  cases fuel with
  | zero => rfl
  | succ fuel => rw [TExpSimulator.work, if_neg (by omega)]

/-- C2: every grid point processed by `work` (with exposure time `t`,
electron rate `Ie`, threshold `c`, gain `g`) stores the dot product, over the
support `{0,…,5·⌈Ie·t⌉}`, of the Poisson mass at each support point (closed
form for rate ≤ 20, `N(rate, √rate)` density for rate > 20) and the
erf-difference probability that a Gaussian with mean `count/g` and standard
deviation `ron(t)/g` lands in `[c − 0.5, c + 0.5]`. -/
theorem C2_work_density (erf : ℝ → ℝ) (s : TExpSimulator) (fuel : ℕ) (c : ℝ)
    (j : ℕ) (hlen : s.p.length = s.N)
    (hca : s.ca = c - 1/2) (hcb : s.cb = c + 1/2)
    (hIe : 0 ≤ s.Ie) (ht : ∀ x ∈ s.t_exp, 0 ≤ x)
    (hij : s.i ≤ j) (hjf : j < s.i + fuel) (hjN : j < s.N) :
    (s.work erf fuel).p[j]? =
      some (some (claimC2_density erf s.Ie s.gain s.ronF c (s.t_exp.getD j 0))) := by
  have h0 : 0 ≤ s.t_exp.getD j 0 := by
    rcases lt_or_ge j s.t_exp.length with hj | hj
    · rw [List.getD_eq_getElem _ _ hj]
      exact ht _ (List.getElem_mem hj)
    · rw [List.getD_eq_default _ _ hj]
  rw [work_entries erf fuel s j hlen hij hjf hjN,
    texpDensityAt_eq_claim erf s c _ hca hcb hIe h0]

/-- Concrete one-point simulator state (rate 0, `count_limit = 0`). -/
def sW2 : TExpSimulator :=
  { Ie := 0, gain := 1, ronF := fun _ => 1, t_exp := [0], p := [none],
    i := 0, N := 1, ca := 0 - 1/2, cb := 0 + 1/2, dt := 1 }

theorem C2_witness :
    (sW2.work (fun _ => 0) 1).p[0]? =
      some (some (claimC2_density (fun _ => 0) sW2.Ie sW2.gain sW2.ronF 0
        (sW2.t_exp.getD 0 0))) :=
  C2_work_density (fun _ => 0) sW2 1 0 0 rfl rfl rfl le_rfl
    (by intro x hx; simp only [sW2] at hx; simp at hx; simp [hx])
    (Nat.le_refl 0) (by omega) (by decide)

/-- Concrete one-point simulator state used for the progress invariants. -/
def sW8 : TExpSimulator :=
  { Ie := 0, gain := 1, ronF := fun _ => 1, t_exp := [0], p := [none],
    i := 0, N := 1, ca := 0 - 1/2, cb := 0 + 1/2, dt := 1 }

/-- C8: across any sequence of `work` calls the progress index stays in
`[0, N]` and never decreases, `progress() = i/N` is monotonically
non-decreasing and equals exactly 1 precisely when `done()` holds
(`i == N`), and a `work` call made after `done()` leaves the whole state
(index and density array) unchanged. -/
theorem C8_progress_invariants (erf : ℝ → ℝ) (s : TExpSimulator) (fuel : ℕ)
    (hN : 0 < s.N) (hi : s.i ≤ s.N) :
    (s.work erf fuel).i ≤ s.N ∧ s.i ≤ (s.work erf fuel).i ∧
    s.progress ≤ (s.work erf fuel).progress ∧
    ((s.work erf fuel).progress = 1 ↔ (s.work erf fuel).done = true) ∧
    (s.done = true → s.work erf fuel = s) := by
  have hNfix : (s.work erf fuel).N = s.N := (work_fields erf fuel s).2.2.2.2.1
  have hieq : (s.work erf fuel).i = min (s.i + fuel) s.N := work_i_eq erf fuel s hi
  have hNR : (0:ℝ) < (s.N : ℝ) := by exact_mod_cast hN
  refine ⟨by omega, by omega, ?_, ?_, ?_⟩
  · unfold TExpSimulator.progress
    rw [hNfix, hieq]
    apply (div_le_div_iff_of_pos_right hNR).mpr
    exact_mod_cast by omega
  · unfold TExpSimulator.progress TExpSimulator.done
    simp only [hNfix, hieq, beq_iff_eq]
    rw [div_eq_one_iff_eq (ne_of_gt hNR)]
    exact_mod_cast Iff.rfl
  · intro hdone
    apply work_noop
    simpa [TExpSimulator.done, beq_iff_eq] using hdone

theorem C8_witness :
    ((sW8.work (fun _ => 0) 1).i ≤ sW8.N ∧
     sW8.i ≤ (sW8.work (fun _ => 0) 1).i ∧
     sW8.progress ≤ (sW8.work (fun _ => 0) 1).progress ∧
     ((sW8.work (fun _ => 0) 1).progress = 1 ↔
       (sW8.work (fun _ => 0) 1).done = true) ∧
     (sW8.done = true → sW8.work (fun _ => 0) 1 = sW8)) :=
  C8_progress_invariants (fun _ => 0) sW8 1 (by decide) (by decide)

theorem sum_map_mul_right_list (l : List ℝ) (c : ℝ) :
    (l.map (fun v => v * c)).sum = l.sum * c := by
  induction l with
  | nil => simp
  | cons a l ih => simp [ih]; ring

/-- Two grid points, both with accumulated density 1, grid step 1. -/
def sW7 : TExpSimulator :=
  { Ie := 0, gain := 1, ronF := fun _ => 1, t_exp := [0, 1],
    p := [some 1, some 1], i := 2, N := 2, ca := 0 - 1/2, cb := 0 + 1/2,
    dt := 1 }

/-- C7 counterexample: `get_result` does not normalize by the trapezoid-rule
integral.  With densities `[1, 1]` and `dt = 1` the code divides by the
rectangle sum `np.sum(p*dt) = 2`, while the trapezoid integral is 1, so the
two prescriptions disagree. -/
theorem C7_counterexample : sW7.get_result ≠ claimC7_result sW7 := by
  unfold TExpSimulator.get_result claimC7_result sW7
  intro h
  have h2 := congrArg (fun q => q.2.getD 0 0) h
  simp [trapzSum] at h2

/-- C7 amended: `result()` zeroes NaN entries and normalizes by the
*rectangle* sum `dt · Σ p_i` (`np.sum(self.p * self.dt)`), not by the
trapezoid rule; a zero sum leaves the array unscaled; the returned pair is
(t-grid, density). -/
theorem C7_amended (s : TExpSimulator) :
    s.get_result =
      (s.t_exp,
        if s.dt * (s.p.map (fun x => x.getD 0)).sum = 0 then
          s.p.map (fun x => x.getD 0)
        else (s.p.map (fun x => x.getD 0)).map
          (fun v => v / (s.dt * (s.p.map (fun x => x.getD 0)).sum))) := by
  unfold TExpSimulator.get_result
  dsimp only
  rw [sum_map_mul_right_list, mul_comm ((s.p.map (fun x => x.getD 0)).sum) s.dt]
  by_cases h : s.dt * (s.p.map (fun x => x.getD 0)).sum = 0
  · rw [if_pos h, if_pos h]
    simp
  · rw [if_neg h, if_neg h]

/-- CCD pixel with gain 2. -/
def pxW : CCDPixel := { G := 2 }

/-- C4 counterexample: the code returns `electrons / G` without rounding:
1 electron at gain 2 yields 0.5 counts, while `round(1/2)` is an integer. -/
theorem C4_counterexample :
    pxW.countsPerPixel 1 ≠ claimC4_counts 1 pxW.G := by
  unfold CCDPixel.countsPerPixel claimC4_counts pxW
  norm_num [round_eq]

/-- C4 amended: the ADU count is exactly `electrons / gain`, with no
rounding anywhere in the chain; with noise disabled the full simulator chain
yields `max(rate·t, 0) / gain` per sample. -/
theorem C4_amended (px : CCDPixel) (e_rate : List ℝ) (t : ℝ) :
    countsPerPixelNoNoise px e_rate t =
      e_rate.map (fun r => max (r * t) 0 / px.G) ∧
    ∀ electrons : ℝ, px.countsPerPixel electrons = electrons / px.G := by
  constructor
  · unfold countsPerPixelNoNoise electronsPerPixelNoNoise CCDPixel.countsPerPixel
    rw [List.map_map, List.map_map]
    apply List.map_congr_left
    intro r _
    simp only [Function.comp]
    by_cases h : r * t < 0
    · rw [if_pos h, max_eq_right h.le]
    · rw [if_neg h, max_eq_left (not_lt.mp h)]
  · intro electrons
    rfl

/-- The value at `np.argmax`'s index is the maximum of the vector. -/
theorem getD_argmaxIdx : ∀ l : List ℝ, l ≠ [] → l.getD (argmaxIdx l) 0 = listMax l
  | [], h => absurd rfl h
  | [_], _ => rfl
  | a :: b :: rest, _ => by
    rw [argmaxIdx, listMax]
    by_cases h : listMax (b :: rest) ≤ a
    · rw [if_pos h]
      exact (max_eq_left h).symm
    · rw [if_neg h]
      have ih := getD_argmaxIdx (b :: rest) (List.cons_ne_nil b rest)
      calc (a :: b :: rest).getD (argmaxIdx (b :: rest) + 1) 0
          = (b :: rest).getD (argmaxIdx (b :: rest)) 0 := rfl
        _ = listMax (b :: rest) := ih
        _ = max a (listMax (b :: rest)) := (max_eq_right (le_of_lt (not_le.mp h))).symm

/-- C5: `getMaxTexp` computes counts at `t = 1` with noise disabled, takes
the maximum count at the argmax index (reporting the wavelength at that same
index and its frequency), returns `count_limit` divided by that maximum
count, and raises exactly when that maximum count is 0. -/
theorem C5_getMaxTexp (px : CCDPixel) (e_rate wl : List ℝ) (limit : ℝ)
    (hne : e_rate ≠ []) :
    (getMaxTexp px e_rate wl limit = Except.error RadioErr.noCounts ↔
      listMax (countsPerPixelNoNoise px e_rate 1) = 0) ∧
    (listMax (countsPerPixelNoNoise px e_rate 1) ≠ 0 →
      getMaxTexp px e_rate wl limit = Except.ok
        (limit / listMax (countsPerPixelNoNoise px e_rate 1),
         wl.getD (argmaxIdx (countsPerPixelNoNoise px e_rate 1)) 0,
         SPEED_OF_LIGHT /
           wl.getD (argmaxIdx (countsPerPixelNoNoise px e_rate 1)) 0)) := by
  have hcne : countsPerPixelNoNoise px e_rate 1 ≠ [] := by
    unfold countsPerPixelNoNoise electronsPerPixelNoNoise
    simpa using hne
  have hmax := getD_argmaxIdx _ hcne
  unfold getMaxTexp
  dsimp only
  rw [hmax]
  constructor
  · by_cases h : listMax (countsPerPixelNoNoise px e_rate 1) = 0
    · simp [h]
    · simp [h]
  · intro h
    rw [if_neg h, one_mul]

/-- C5 witness: a single rate-1 sample at wavelength 2, gain 2, limit 10. -/
theorem C5_witness :
    (getMaxTexp pxW [1] [2] 10 = Except.error RadioErr.noCounts ↔
      listMax (countsPerPixelNoNoise pxW [1] 1) = 0) ∧
    (listMax (countsPerPixelNoNoise pxW [1] 1) ≠ 0 →
      getMaxTexp pxW [1] [2] 10 = Except.ok
        (10 / listMax (countsPerPixelNoNoise pxW [1] 1),
         List.getD [2] (argmaxIdx (countsPerPixelNoNoise pxW [1] 1)) 0,
         SPEED_OF_LIGHT /
           List.getD [2] (argmaxIdx (countsPerPixelNoNoise pxW [1] 1)) 0)) :=
  C5_getMaxTexp pxW [1] [2] 10 (List.cons_ne_nil 1 [])

theorem npRound_three_halves : npRound (3/2) = 2 := by
  have hf : Int.floor ((3:ℝ)/2) = 1 := by
    rw [Int.floor_eq_iff]
    norm_num
  unfold npRound
  rw [hf]
  norm_num

theorem quarter_rpow_three_halves : ((1:ℝ)/4) ^ ((3:ℝ)/2) = 1/8 := by
  have h : ((1:ℝ)/4) = ((1:ℝ)/2) ^ (2:ℕ) := by norm_num
  rw [h, ← Real.rpow_natCast ((1:ℝ)/2) 2,
    ← Real.rpow_mul (by norm_num : (0:ℝ) ≤ 1/2)]
  have h3 : ((2:ℕ):ℝ) * (3/2) = ((3:ℕ):ℝ) := by norm_num
  rw [h3, Real.rpow_natCast]
  norm_num

/-- A constant-transmittance 0.25 stage (f/# never set on its blackbody). -/
def stW6 : StageResponse :=
  { t_fun := fun _ => 1/4, exp := 1, T := 273, black_body := mkBlackBody 273,
    background := true }

/-- A one-stage pipeline whose member got multiplicity 3/2. -/
def cW6 : CompoundResponse :=
  { stages := [stW6.set_multiplicity (3/2)], exp := 1, repeat_train := false }

/-- C6 counterexample: after `set_multiplicity(1.5)` on a leaf stage of
constant transmittance 1/4, the composite transmittance is
`(1/4)^1.5 = 1/8`, not `(1/4)^round(1.5) = 1/16`: the leaf exponent is used
as stored, never rounded. -/
theorem C6_counterexample :
    cW6.get_t 0 ≠ claimC6_contribution (stW6.t_fun 0) (3/2) := by
  have hlhs : cW6.get_t 0 = 1/8 := by
    unfold CompoundResponse.get_t cW6 StageResponse.set_multiplicity stW6
    simp only [List.foldl_cons, List.foldl_nil, one_mul, StageResponse.t]
    rw [if_neg (by norm_num : ¬((3:ℝ)/2 = 1))]
    exact quarter_rpow_three_halves
  have hrhs : claimC6_contribution (stW6.t_fun 0) (3/2) = 1/16 := by
    unfold claimC6_contribution stW6
    rw [npRound_three_halves]
    norm_num
  rw [hlhs, hrhs]
  norm_num

/-- C6 amended: `Pipeline.get_t` over `[t1, t2, t3]` is the product
`t1(λ)·t2(λ)·t3(λ)` of member transmittances with no background term; and a
leaf stage's contribution after `set_multiplicity(m)` is `t(λ) ^ m` with the
exponent used exactly as stored (real power, no rounding; `m = 1` gives
`t(λ)` itself).  Rounding of multiplicities happens only in
`CompoundResponse.apply_*` for whole-train repetition. -/
theorem C6_amended :
    (∀ s1 s2 s3 : StageResponse, ∀ wl : ℝ,
      CompoundResponse.get_t ⟨[s1, s2, s3], 1, false⟩ wl =
        s1.t wl * s2.t wl * s3.t wl) ∧
    (∀ st : StageResponse, ∀ m wl : ℝ, m ≠ 1 →
      (st.set_multiplicity m).t wl = st.t_fun wl ^ m) ∧
    (∀ st : StageResponse, ∀ wl : ℝ, (st.set_multiplicity 1).t wl = st.t_fun wl) := by
  refine ⟨?_, ?_, ?_⟩
  · intro s1 s2 s3 wl
    simp [CompoundResponse.get_t]
  · intro st m wl hm
    simp [StageResponse.set_multiplicity, StageResponse.t, hm]
  · intro st wl
    simp [StageResponse.set_multiplicity, StageResponse.t]

theorem C6_witness :
    (stW6.set_multiplicity (3/2)).t 0 = stW6.t_fun 0 ^ ((3:ℝ)/2) :=
  C6_amended.2.1 stW6 (3/2) 0 (by norm_num)

/-- A stage of constant transmittance 0.5 at 273 K whose blackbody got
`set_fnum(1)`, so `to_irradiance = π/4`. -/
def stW1 : StageResponse :=
  { t_fun := fun _ => 1/2, exp := 1, T := 273,
    black_body := (mkBlackBody 273).set_fnum 1, background := true }

/-- C1 counterexample: a background-enabled stage with `t = 0.5` does *not*
add `(1 − t)` times the blackbody *radiance* at its own temperature: the
code adds `(1 − t) * _black_body.E(wl)`, the blackbody *irradiance*
`π/(4 fnum²) · I`.  At f/1 the two differ by the factor `π/4 ≠ 1`. -/
theorem C1_counterexample :
    stW1.apply_scalar 1 0 false true ≠ Except.ok (claimC1_output stW1 1 0) := by
  have hP : 0 < planck 1 273 := planck_pos (by norm_num) (by norm_num)
  have hq : Real.pi / (4 * (1:ℝ) ^ 2) < 1 := by
    have h1 := Real.pi_lt_d2
    norm_num
    linarith
  have hq0 : ¬ (Real.pi / (4 * (1:ℝ) ^ 2) < 0) := by
    have := Real.pi_pos
    rw [not_lt]
    positivity
  unfold StageResponse.apply_scalar claimC1_output StageResponse.t stW1
    BlackBodySpectrum.E BlackBodySpectrum.I BlackBodySpectrum.get_I
    BlackBodySpectrum.set_fnum mkBlackBody
  dsimp only
  rw [if_pos rfl, if_pos (by norm_num : (0:ℝ) < 273 ∧ true = true)]
  simp only [Bool.false_or, Bool.not_true]
  rw [if_neg (show ¬(false = true) by decide), if_neg hq0]
  simp only [Except.map, ne_eq, Except.ok.injEq]
  intro heq
  nlinarith [mul_lt_mul_of_pos_right hq hP]

theorem apply_scalar_background (st : StageResponse) (wl spectrum : ℝ)
    (hT : 0 < st.T) (hbg : st.background = true)
    (hirr : 0 ≤ st.black_body.to_irradiance) :
    st.apply_scalar wl spectrum false true =
      Except.ok (st.t wl * spectrum +
        (1 - st.t wl) * (st.black_body.to_irradiance *
          (st.black_body.power_factor * planck wl st.black_body.T))) := by
  unfold StageResponse.apply_scalar BlackBodySpectrum.E BlackBodySpectrum.I
    BlackBodySpectrum.get_I
  dsimp only
  rw [if_pos ⟨hT, hbg⟩]
  simp only [Bool.false_or, Bool.not_true]
  rw [if_neg (show ¬(false = true) by decide), if_neg (not_lt.mpr hirr)]
  simp [Except.map]

/-- C1 amended: for a stage with positive temperature, background enabled,
its blackbody's f/# set, and a non-power-type thermal input, `apply` returns
`t(λ)·input + (1 − t(λ)) · to_irradiance · power_factor · planck(λ, T)` —
the graybody term uses the blackbody's *irradiance* `E` (its radiance scaled
by the stored `to_irradiance = π/(4 fnum²)` factor), not the bare
radiance. -/
theorem C1_amended (st : StageResponse) (wl spectrum : ℝ)
    (hT : 0 < st.T) (hbg : st.background = true)
    (hirr : 0 ≤ st.black_body.to_irradiance) :
    st.apply_scalar wl spectrum false true =
      Except.ok (st.t wl * spectrum +
        (1 - st.t wl) * (st.black_body.to_irradiance *
          (st.black_body.power_factor * planck wl st.black_body.T))) :=
  apply_scalar_background st wl spectrum hT hbg hirr

theorem C1_witness :
    stW1.apply_scalar 1 0 false true =
      Except.ok (stW1.t 1 * 0 +
        (1 - stW1.t 1) * (stW1.black_body.to_irradiance *
          (stW1.black_body.power_factor * planck 1 stW1.black_body.T))) :=
  C1_amended stW1 1 0 (by norm_num [stW1]) rfl
    (by
      simp only [stW1, mkBlackBody, BlackBodySpectrum.set_fnum]
      positivity)

/-- Applying a one-stage pipeline of multiplicity 1 is applying the stage. -/
theorem compound_single_apply (st : StageResponse) (wl spec : ℝ) (th : Bool) :
    CompoundResponse.apply_scalar ⟨[st], 1, false⟩ wl spec th =
      st.apply_scalar wl spec false th := by
  unfold CompoundResponse.apply_scalar
  dsimp only
  rw [npRound_one]
  show applyIter [st] wl th 1 spec = _
  cases h : st.apply_scalar wl spec false th with
  | ok r => simp [applyIter, applyStages, h]
  | error e => simp [applyIter, applyStages, h]

/-- The empty pipeline is the identity, however many times it repeats. -/
theorem applyIter_nil (wl : ℝ) (th : Bool) (n : ℕ) (r : ℝ) :
    applyIter [] wl th n r = Except.ok r := by
  induction n generalizing r with
  | zero => rfl
  | succ n ih => simp [applyIter, applyStages, ih]

/-- An attenuated spectrum at attenuation 1 whose filter pipeline holds the
single warm stage `stW1`. -/
def attW3 : AttenuatedSpectrum :=
  { source_power_factor := 1, source_get_I := fun _ => 1,
    filters := { stages := [stW1], exp := 1, repeat_train := false },
    attenuation := 1 }

/-- C3 counterexample: with attenuation 1 and one warm background-enabled
filter stage, the produced density is the stage's thermal emission — not
`power_factor * (1 − attenuation) * raw = 0`. -/
theorem C3_counterexample :
    attW3.get_I 1 ≠
      Except.ok (attW3.source_power_factor * (1 - attW3.attenuation) *
        attW3.source_get_I 1) := by
  have hP : 0 < planck 1 273 := planck_pos (by norm_num) (by norm_num)
  have hq0 : ¬ (Real.pi / (4 * (1:ℝ) ^ 2) < 0) := by
    have := Real.pi_pos
    rw [not_lt]
    positivity
  unfold AttenuatedSpectrum.get_I attW3
  dsimp only
  rw [compound_single_apply]
  unfold StageResponse.apply_scalar StageResponse.t stW1 BlackBodySpectrum.E
    BlackBodySpectrum.I BlackBodySpectrum.get_I BlackBodySpectrum.set_fnum
    mkBlackBody
  dsimp only
  rw [if_pos rfl, if_pos (by norm_num : (0:ℝ) < 273 ∧ true = true)]
  simp only [Bool.false_or, Bool.not_true]
  rw [if_neg (show ¬(false = true) by decide), if_neg hq0]
  simp only [Except.map, ne_eq, Except.ok.injEq]
  intro heq
  nlinarith [mul_pos Real.pi_pos hP]

/-- Power-rated spectrum fixture at attenuation 1. -/
def psW3 : PowerSpectrum :=
  { power := none, power_factor := 1, attenuation := 1, get_PSD_fun := fun _ => 1 }

/-- C3 amended: `PowerSpectrum.PSD` honors
`power_factor · (1 − attenuation) · raw` exactly (identity at a = 0, zero at
a = 1); `AttenuatedSpectrum.get_I` applies that scaling *before* its filter
chain, so it equals the scaled raw density whenever the chain is empty (its
construction default), while a background-emitting chain may produce a
nonzero density at attenuation 1. -/
theorem C3_amended :
    (∀ (s : PowerSpectrum) (wl : ℝ),
      s.PSD wl = s.power_factor * (1 - s.attenuation) * s.get_PSD_fun wl) ∧
    (∀ (s : PowerSpectrum) (wl : ℝ), s.attenuation = 0 →
      s.PSD wl = s.power_factor * s.get_PSD_fun wl) ∧
    (∀ (s : PowerSpectrum) (wl : ℝ), s.attenuation = 1 → s.PSD wl = 0) ∧
    (∀ (s : AttenuatedSpectrum) (wl : ℝ), s.filters.stages = [] →
      s.get_I wl = Except.ok ((1 - s.attenuation) * s.source_power_factor *
        s.source_get_I wl)) := by
  refine ⟨?_, ?_, ?_, ?_⟩
  · intro s wl
    rfl
  · intro s wl h
    simp [PowerSpectrum.PSD, h]
  · intro s wl h
    simp [PowerSpectrum.PSD, h]
  · intro s wl h
    unfold AttenuatedSpectrum.get_I CompoundResponse.apply_scalar
    dsimp only
    rw [h, applyIter_nil]

theorem C3_witness : psW3.PSD 0 = 0 :=
  C3_amended.2.2.1 psW3 0 rfl

/-- Default power spectrum fixture (no rating, attenuation 0). -/
def psW : PowerSpectrum :=
  { power := none, power_factor := 1, attenuation := 0, get_PSD_fun := fun _ => 1 }

/-- C9 counterexample: `PowerSpectrum.set_attenuation` performs no range
check at all: setting the out-of-range attenuation 2 succeeds and stores 2,
contradicting "raises InvalidAttenuation iff a ∉ [0,1]" for every spectral
source. -/
theorem C9_counterexample : (psW.set_attenuation 2).attenuation = 2 := rfl

/-- C9 amended: `AttenuatedSpectrum.set_attenuation` raises
InvalidAttenuation exactly when a ∉ [0,1] and stores `a` on success;
`PowerSpectrum.set_attenuation` performs no validation and stores any
value. -/
theorem C9_amended (s : AttenuatedSpectrum) (a : ℝ) :
    (s.set_attenuation a = Except.error RadioErr.invalidAttenuation ↔
      a < 0 ∨ 1 < a) ∧
    (¬(a < 0 ∨ 1 < a) →
      s.set_attenuation a = Except.ok { s with attenuation := a }) ∧
    (∀ ps : PowerSpectrum, (ps.set_attenuation a).attenuation = a) := by
  unfold AttenuatedSpectrum.set_attenuation
  refine ⟨?_, ?_, ?_⟩
  · by_cases h : a < 0 ∨ 1 < a
    · simp [h]
    · simp [h]
  · intro h
    rw [if_neg h]
  · intro ps
    rfl

/-- Attenuated spectrum fixture with the default empty filter chain. -/
def attW9 : AttenuatedSpectrum :=
  { source_power_factor := 1, source_get_I := fun _ => 1,
    filters := { stages := [], exp := 1, repeat_train := false },
    attenuation := 0 }

theorem C9_witness :
    attW9.set_attenuation (1/2) = Except.ok { attW9 with attenuation := 1/2 } :=
  (C9_amended attW9 (1/2)).2.1 (by norm_num)

/-- Compound pipeline constructed with `repeat_train = True`. -/
def cW10 : CompoundResponse := { stages := [], exp := 1, repeat_train := true }

/-- C10: on a pipeline built with `repeat_train = True`, `set_multiplicity`
raises (the source references `set_multiplicity` on the imported
`StageResponse` *module*, not the inherited method on `self`), so the stored
multiplicity never changes through this path; `apply` therefore threads the
whole chain `round(stored exp)` times — once, with the construction default
`exp = 1`. -/
theorem C10_set_multiplicity (c : CompoundResponse) (m : ℝ)
    (h : c.repeat_train = true) :
    c.set_multiplicity m = Except.error RadioErr.attrSetMultiplicity ∧
    (c.exp = 1 → ∀ wl spectrum : ℝ, ∀ thermal : Bool,
      c.apply_scalar wl spectrum thermal =
        applyStages wl thermal c.stages spectrum) := by
  constructor
  · unfold CompoundResponse.set_multiplicity
    rw [if_pos h]
  · intro hexp wl spectrum thermal
    unfold CompoundResponse.apply_scalar
    rw [hexp, npRound_one]
    show applyIter c.stages wl thermal 1 spectrum = _
    cases happ : applyStages wl thermal c.stages spectrum with
    | ok r => simp [applyIter, happ]
    | error e => simp [applyIter, happ]

theorem C10_witness :
    cW10.set_multiplicity 2 = Except.error RadioErr.attrSetMultiplicity ∧
    cW10.apply_scalar 0 5 true = applyStages 0 true cW10.stages 5 :=
  ⟨(C10_set_multiplicity cW10 2 rfl).1,
   (C10_set_multiplicity cW10 2 rfl).2 rfl 0 5 true⟩
